import Mathlib

/-!
Verification of the screen-capture / coordinate-normalization layer
(`Screen.py`): monitor selection, 16:9 crop geometry, calibration-scale
resolution, percent/pixel rect conversions, and the live/static capture
abstraction.  Python floats are modelled as exact rationals, Python ints
as `ℤ`/`ℕ`, raised exceptions as `Except`, and the OS pixel-grab service
as an oracle parameter.
-/

/-! ### Executable rational arithmetic

The Batteries field operations on `ℚ` are `@[irreducible]`, so concrete
values could not be checked by `decide`.  The definitions below compute
the same operations through `mkRat`/`Rat.divInt` (which do reduce), and
are proved equal to the field operations.  `pyInt` is Python `int()`
applied to a nonnegative-or-negative rational: truncation toward zero.
`pyAbs` is Python `abs` on rationals. -/

def qadd (a b : ℚ) : ℚ := mkRat (a.num * b.den + b.num * a.den) (a.den * b.den)

def qsub (a b : ℚ) : ℚ := qadd a (-b)

def qmul (a b : ℚ) : ℚ := mkRat (a.num * b.num) (a.den * b.den)

def qdiv (a b : ℚ) : ℚ := Rat.divInt (a.num * b.den) (a.den * b.num)

def pyInt (q : ℚ) : ℤ := q.num.tdiv q.den

def pyAbs (q : ℚ) : ℚ := if q < 0 then -q else q

theorem qadd_eq (a b : ℚ) : qadd a b = a + b := by
  rw [qadd, Rat.mkRat_eq_divInt]
  conv_rhs => rw [← Rat.num_divInt_den a, ← Rat.num_divInt_den b,
    Rat.divInt_add_divInt _ _ (Int.natCast_ne_zero.mpr a.den_nz)
      (Int.natCast_ne_zero.mpr b.den_nz)]
  push_cast
  ring_nf

theorem qsub_eq (a b : ℚ) : qsub a b = a - b := by
  rw [qsub, qadd_eq, sub_eq_add_neg]

theorem qmul_eq (a b : ℚ) : qmul a b = a * b := by
  rw [qmul, Rat.mkRat_eq_divInt]
  conv_rhs => rw [← Rat.num_divInt_den a, ← Rat.num_divInt_den b,
    Rat.divInt_mul_divInt _ _ (Int.natCast_ne_zero.mpr a.den_nz)
      (Int.natCast_ne_zero.mpr b.den_nz)]
  push_cast
  ring_nf

theorem qdiv_eq (a b : ℚ) : qdiv a b = a / b := by
  rcases eq_or_ne b 0 with rfl | hb
  · show Rat.divInt (a.num * (0:ℚ).den) (a.den * (0:ℚ).num) = a / 0
    rw [show ((0:ℚ).num) = 0 from rfl, mul_zero, Rat.divInt_zero, div_zero]
  · have hbn : b.num ≠ 0 := Rat.num_ne_zero.mpr hb
    rw [qdiv, div_eq_mul_inv, Rat.inv_def']
    conv_rhs => rw [← Rat.num_divInt_den a,
      Rat.divInt_mul_divInt _ _ (Int.natCast_ne_zero.mpr a.den_nz) hbn]

theorem pyAbs_eq_abs (q : ℚ) : pyAbs q = |q| := by
  unfold pyAbs
  split
  · rw [abs_of_neg (by assumption)]
  · rw [abs_of_nonneg (not_lt.mp (by assumption))]

theorem pyInt_eq_floor (q : ℚ) (h : 0 ≤ q) : pyInt q = ⌊q⌋ := by
  rw [pyInt, Int.tdiv_eq_ediv (Rat.num_nonneg.mpr h) (Int.natCast_nonneg _),
    Rat.floor_def]

theorem mkRat_one_hundredth : (mkRat 1 100 : ℚ) = 1 / 100 := by
  rw [Rat.mkRat_eq_divInt, Rat.divInt_eq_div]
  norm_num

/-! ### Data model -/

/-- One entry of `mss.monitors`: raw geometry of a display
(`left`, `top`, `width`, `height`). -/
structure MonitorInfo where
  left : ℤ
  top : ℤ
  width : ℕ
  height : ℕ
deriving DecidableEq

/-- A window rectangle as returned by `GetWindowRect`:
`(left, top, right, bottom)`. -/
structure WinRect where
  left : ℤ
  top : ℤ
  right : ℤ
  bottom : ℤ
deriving DecidableEq

/-- A pixel with four channels, in buffer order (channel 0 first). -/
abbrev Pix := ℕ × ℕ × ℕ × ℕ

/-- A pixel buffer (`numpy` array of shape h × w × ch), as rows of
pixels. -/
structure Image where
  data : List (List Pix)
deriving DecidableEq

/-- `image.shape` first component. -/
def Image.height (img : Image) : ℕ := img.data.length

/-- `image.shape` second component. -/
def Image.width (img : Image) : ℕ := (img.data.headD []).length

/-- Channel reorder performed by `cv2.cvtColor` with `COLOR_RGB2BGR`
or `COLOR_BGR2RGB` (both constants denote the same transform): swap
channels 0 and 2 of each pixel, keep the rest. -/
def pixSwapRB : Pix → Pix
  | (c0, c1, c2, c3) => (c2, c1, c0, c3)

/-- `cv2.cvtColor(image, COLOR_RGB2BGR)` = `cv2.cvtColor(image,
COLOR_BGR2RGB)`: swap channels 0 and 2 of every pixel. -/
def cvtColorSwapRB (img : Image) : Image :=
  ⟨img.data.map (List.map pixSwapRB)⟩

/-- The OS pixel-grab oracle: `mss.grab` over a rectangle
(top, left, width, height) restricted to a monitor index.  The buffer
it returns is in the native `mss` channel order, BGRA. -/
structure GrabEnv where
  grab : ℤ → ℤ → ℤ → ℤ → ℕ → Image

/-- Python exceptions that the modelled code can raise.  Accessing the
never-assigned `self.mon` / `self.monitor_number` raises
`AttributeError`. -/
inductive PyErr where
  | attributeError
deriving DecidableEq

instance {e a : Type} [DecidableEq e] [DecidableEq a] :
    DecidableEq (Except e a) := fun x y =>
  match x, y with
  | .ok u, .ok v => decidable_of_iff (u = v) (by simp)
  | .error u, .error v => decidable_of_iff (u = v) (by simp)
  | .ok _, .error _ => isFalse (by simp)
  | .error _, .ok _ => isFalse (by simp)

/-- The scale table: resolution key `"WIDTHxHEIGHT"` to
`(scaleX, scaleY)`. -/
abbrev ScaleTable := List (String × (ℚ × ℚ))

/-- The built-in default `self.scales` table of `Screen.__init__`. -/
def defaultScales : ScaleTable :=
  [("1024x768", (mkRat 39 100, mkRat 39 100)),
   ("1080x1080", (mkRat 1 2, mkRat 1 2)),
   ("1280x800", (mkRat 48 100, mkRat 48 100)),
   ("1280x1024", (mkRat 1 2, mkRat 1 2)),
   ("1600x900", (mkRat 6 10, mkRat 6 10)),
   ("1920x1080", (mkRat 75 100, mkRat 75 100)),
   ("1920x1200", (mkRat 73 100, mkRat 73 100)),
   ("1920x1440", (mkRat 8 10, mkRat 8 10)),
   ("2560x1080", (mkRat 75 100, mkRat 75 100)),
   ("2560x1440", (1, 1)),
   ("3440x1440", (1, 1))]

/-- The mutable attributes of a `Screen` object that the modelled
methods read or write.  `mon` and `monitor_number` are `Option` because
`__init__` may finish without ever assigning them. -/
structure ScreenState where
  using_screen : Bool
  screen_image : Option Image
  crop_offset_x : ℤ
  crop_offset_y : ℤ
  raw_screen_width : ℕ
  raw_screen_height : ℕ
  screen_width : ℤ
  screen_height : ℤ
  monitor_number : Option ℕ
  mon : Option MonitorInfo
  scales : ScaleTable
  scaleX : ℚ
  scaleY : ℚ
deriving DecidableEq

/-- A rect array `[L, T, R, B]` in percent (0.0 - 1.0). -/
structure RectPct where
  l : ℚ
  t : ℚ
  r : ℚ
  b : ℚ

/-- A rect array `[L, T, R, B]` in pixels. -/
structure RectPx where
  l : ℤ
  t : ℤ
  r : ℤ
  b : ℤ
deriving DecidableEq

/-! ### The 16:9 crop computation (`Screen._calculate_16_9_crop`) -/

/-- `target_aspect = 16 / 9`. -/
def targetAspect : ℚ := qdiv 16 9

/-- The four attributes assigned by `_calculate_16_9_crop`. -/
structure CropResult where
  screen_width : ℤ
  screen_height : ℤ
  crop_offset_x : ℤ
  crop_offset_y : ℤ
deriving DecidableEq

/-- `Screen._calculate_16_9_crop`, as a function of
`raw_screen_width` and `raw_screen_height`.  Python `//` is `Int.fdiv`;
`int()` of a float is truncation (`pyInt`). -/
def calc_16_9_crop (rawW rawH : ℕ) : CropResult :=
  let current := if 0 < rawH then qdiv (rawW : ℚ) (rawH : ℚ) else targetAspect
  if pyAbs (qsub current targetAspect) < mkRat 1 100 then
    ⟨(rawW : ℤ), (rawH : ℤ), 0, 0⟩
  else if targetAspect < current then
    let sw := pyInt (qmul (rawH : ℚ) targetAspect)
    ⟨sw, (rawH : ℤ), Int.fdiv ((rawW : ℤ) - sw) 2, 0⟩
  else
    let sh := pyInt (qdiv (rawW : ℚ) targetAspect)
    ⟨(rawW : ℤ), sh, 0, Int.fdiv ((rawH : ℤ) - sh) 2⟩

/-! ### Monitor selection loop of `Screen.__init__` -/

/-- The `for item in self.mons` loop of `__init__`, over the
index-annotated monitor list.  Index 0 (the virtual-desktop aggregate)
is skipped.  When the window rect was not found the first non-aggregate
monitor is taken and the loop breaks; when it was found, every monitor
whose `(left, top)` equals the rect's `(left, top)` overwrites the
selection and the loop continues (the source has no `break` in that
branch). -/
def monitorLoop (edRect : Option WinRect) :
    List (ℕ × MonitorInfo) → Option (ℕ × MonitorInfo) →
    Option (ℕ × MonitorInfo)
  | [], acc => acc
  | (i, m) :: rest, acc =>
    if 0 < i then
      match edRect with
      | none => some (i, m)
      | some r =>
        if m.left = r.left ∧ m.top = r.top then
          monitorLoop edRect rest (some (i, m))
        else
          monitorLoop edRect rest acc
    else
      monitorLoop edRect rest acc

/-! ### Calibration table (`read_config`) and scale resolution -/

/-- `Screen.read_config`: opening the file may fail (`fileContent =
none`) and `json.load` may fail (`parseJson` returns `none`); both are
caught, logged as a warning, and leave the result `None`.  The second
component records whether a warning was logged. -/
def read_config (fileContent : Option String)
    (parseJson : String → Option ScaleTable) : Option ScaleTable × Bool :=
  match fileContent with
  | none => (none, true)
  | some c =>
    match parseJson c with
    | none => (none, true)
    | some t => (some t, false)

/-- The resolution key `str(screen_width) + "x" + str(screen_height)`. -/
def scaleKey (w h : ℤ) : String := toString w ++ "x" ++ toString h

/-- The `try: self.scaleX = self.scales[key][0] ... except:` block of
`__init__`: exact table hit returns the entry, otherwise the fallback
`(width / 3440.0, height / 1440.0)`. -/
def resolve_scale (scales : ScaleTable) (w h : ℤ) : ℚ × ℚ :=
  match scales.lookup (scaleKey w h) with
  | some p => p
  | none => (qdiv (w : ℚ) 3440, qdiv (h : ℚ) 1440)

/-! ### Construction (`Screen.__init__`)

The OS queries are oracle parameters: `edRect` is the result of
`get_elite_window_rect()`, `mons` is `self.mss.monitors`, and
`cfgResult` is the value returned by `self.read_config()`. -/

/-- `Screen.__init__` after the OS queries: monitor matching, 16:9 crop,
scale-table loading and scale resolution. -/
def Screen.init (edRect : Option WinRect) (mons : List MonitorInfo)
    (cfgResult : Option ScaleTable) : ScreenState :=
  let sel := monitorLoop edRect mons.enum none
  let rawW := match sel with | some (_, m) => m.width | none => 0
  let rawH := match sel with | some (_, m) => m.height | none => 0
  let cg := calc_16_9_crop rawW rawH
  let scales := match cfgResult with | some t => t | none => defaultScales
  let sxy := resolve_scale scales cg.screen_width cg.screen_height
  { using_screen := true
    screen_image := none
    crop_offset_x := cg.crop_offset_x
    crop_offset_y := cg.crop_offset_y
    raw_screen_width := rawW
    raw_screen_height := rawH
    screen_width := cg.screen_width
    screen_height := cg.screen_height
    monitor_number := sel.map Prod.fst
    mon := sel.map Prod.snd
    scales := scales
    scaleX := sxy.1
    scaleY := sxy.2 }

/-! ### Rect conversions -/

/-- `Screen.screen_rect_to_abs`: percent rect to pixels relative to the
16:9 cropped area. -/
def screen_rect_to_abs (s : ScreenState) (rect : RectPct) : RectPx :=
  ⟨pyInt (qmul rect.l (s.screen_width : ℚ)),
   pyInt (qmul rect.t (s.screen_height : ℚ)),
   pyInt (qmul rect.r (s.screen_width : ℚ)),
   pyInt (qmul rect.b (s.screen_height : ℚ))⟩

/-- `Screen.screen_rect_to_abs_overlay`: percent rect to pixels on the
full screen, crop offset included. -/
def screen_rect_to_abs_overlay (s : ScreenState) (rect : RectPct) : RectPx :=
  ⟨pyInt (qmul rect.l (s.screen_width : ℚ)) + s.crop_offset_x,
   pyInt (qmul rect.t (s.screen_height : ℚ)) + s.crop_offset_y,
   pyInt (qmul rect.r (s.screen_width : ℚ)) + s.crop_offset_x,
   pyInt (qmul rect.b (s.screen_height : ℚ)) + s.crop_offset_y⟩

/-- `Screen.abs_rect_to_overlay`: add the crop offset to
already-absolute pixel coordinates. -/
def abs_rect_to_overlay (s : ScreenState) (rect : RectPx) : RectPx :=
  ⟨rect.l + s.crop_offset_x,
   rect.t + s.crop_offset_y,
   rect.r + s.crop_offset_x,
   rect.b + s.crop_offset_y⟩

/-! ### Capture operations -/

/-- `Screen.get_screen`: builds the monitor dict from `self.mon`,
`self.crop_offset_*` and `self.monitor_number`, grabs it, and applies
`cvtColor(..., COLOR_RGB2BGR)` when `rgb` is true.  Reading the
never-assigned `self.mon` raises `AttributeError`. -/
def get_screen (env : GrabEnv) (s : ScreenState)
    (x_left y_top x_right y_bot : ℤ) (rgb : Bool) :
    Except PyErr Image :=
  match s.mon, s.monitor_number with
  | some m, some n =>
    let image := env.grab (m.top + s.crop_offset_y + y_top)
      (m.left + s.crop_offset_x + x_left) (x_right - x_left)
      (y_bot - y_top) n
    .ok (if rgb then cvtColorSwapRB image else image)
  | _, _ => .error .attributeError

/-- Python list slicing index clamp: for `xs[a:b]` a negative bound
counts from the end (clamped below at 0), a nonnegative bound is clamped
above at the length. -/
def pySliceIdx (n : ℕ) (i : ℤ) : ℕ :=
  if i < 0 then ((n : ℤ) + i).toNat else min i.toNat n

/-- Python `xs[a:b]`. -/
def pySlice {α : Type} (xs : List α) (a b : ℤ) : List α :=
  (xs.take (pySliceIdx xs.length b)).drop (pySliceIdx xs.length a)

/-- `Screen.crop_image_by_pct`: crop an image by percent values,
`image[y0:y1, x0:x1]` with `x0 = int(w * rect[0])` etc. -/
def crop_image_by_pct (img : Image) (rect : RectPct) : Image :=
  let h := img.height
  let w := img.width
  let x0 := pyInt (qmul (w : ℚ) rect.l)
  let y0 := pyInt (qmul (h : ℚ) rect.t)
  let x1 := pyInt (qmul (w : ℚ) rect.r)
  let y1 := pyInt (qmul (h : ℚ) rect.b)
  ⟨(pySlice img.data y0 y1).map (fun row => pySlice row x0 x1)⟩

/-- `Screen.get_screen_rect_pct`: in live mode convert the percent rect,
call `get_screen` (with its default `rgb=True`) and apply
`cvtColor(..., COLOR_BGR2RGB)` on the result; in static mode return
`None` when no image is set, else the percent crop of the image. -/
def get_screen_rect_pct (env : GrabEnv) (s : ScreenState)
    (rect : RectPct) : Except PyErr (Option Image) :=
  if s.using_screen then
    let a := screen_rect_to_abs s rect
    match get_screen env s a.l a.t a.r a.b true with
    | .ok image => .ok (some (cvtColorSwapRB image))
    | .error e => .error e
  else
    match s.screen_image with
    | none => .ok none
    | some img => .ok (some (crop_image_by_pct img rect))

/-- `Screen.get_screen_full`: in live mode grab the whole 16:9 area and
apply `cvtColor(..., COLOR_BGR2RGB)`; in static mode return
`self._screen_image` (which may be `None`) unmodified. -/
def get_screen_full (env : GrabEnv) (s : ScreenState) :
    Except PyErr (Option Image) :=
  if s.using_screen then
    match get_screen env s 0 0 s.screen_width s.screen_height true with
    | .ok image => .ok (some (cvtColorSwapRB image))
    | .error e => .error e
  else
    .ok s.screen_image

/-- `Screen.set_screen_image`: switch to static mode, store the image,
and set the screen size to the image's own dimensions. -/
def set_screen_image (s : ScreenState) (img : Image) : ScreenState :=
  { s with
    using_screen := false
    screen_image := some img
    screen_width := (img.width : ℤ)
    screen_height := (img.height : ℤ) }

/-! ### C1: composability of the rect conversions -/

/-- C1: for every state (hence every crop geometry) and every percent
rect, converting directly to overlay pixels equals converting to capture
pixels and then adding the crop offset, component for component. -/
theorem overlay_path_composes (s : ScreenState) (rect : RectPct) :
    screen_rect_to_abs_overlay s rect =
      abs_rect_to_overlay s (screen_rect_to_abs s rect) := rfl

/-! ### C7: static-mode isolation -/

/-- C7: after `set_screen_image` with an image of width W and height H,
`screen_width`/`screen_height` equal W/H whatever they were before, and
a full-frame capture returns the injected image itself. -/
theorem static_mode_isolation (s : ScreenState) (img : Image)
    (env : GrabEnv) :
    (set_screen_image s img).screen_width = (img.width : ℤ) ∧
    (set_screen_image s img).screen_height = (img.height : ℤ) ∧
    get_screen_full env (set_screen_image s img) = .ok (some img) :=
  ⟨rfl, rfl, rfl⟩

/-! ### C8: calibration-file failure is non-fatal -/

/-- C8: on every `read_config` failure (file missing, or present but
unparseable) the result is `None` with a warning logged, construction
still returns a state, and that state keeps the built-in default scale
table; when `read_config` returns a table it replaces the default. -/
theorem config_failure_keeps_defaults
    (parseJson : String → Option ScaleTable) (c : String)
    (edRect : Option WinRect) (mons : List MonitorInfo) (t : ScaleTable) :
    read_config none parseJson = (none, true) ∧
    (parseJson c = none → read_config (some c) parseJson = (none, true)) ∧
    (Screen.init edRect mons none).scales = defaultScales ∧
    (Screen.init edRect mons (some t)).scales = t := by
  refine ⟨rfl, fun hp => ?_, rfl, rfl⟩
  simp [read_config, hp]

/-- Witness for C8 at a concrete failing parse and concrete
construction inputs. -/
theorem config_failure_keeps_defaults_witness :
    read_config (some "bad json") (fun _ => none) = (none, true) ∧
    (Screen.init none [] none).scales = defaultScales :=
  ⟨(config_failure_keeps_defaults (fun _ => none) "bad json" none []
      defaultScales).2.1 rfl,
   (config_failure_keeps_defaults (fun _ => none) "bad json" none []
      defaultScales).2.2.1⟩

/-! ### C9: static mode with no injected image -/

/-- C9: in static mode with no injected image, both region capture and
full-frame capture return `None` (no exception), for every percent
rect. -/
theorem static_none_returns_none (env : GrabEnv) (s : ScreenState)
    (rect : RectPct) (hu : s.using_screen = false)
    (hi : s.screen_image = none) :
    get_screen_rect_pct env s rect = .ok none ∧
    get_screen_full env s = .ok none := by
  constructor
  · simp [get_screen_rect_pct, hu, hi]
  · simp [get_screen_full, hu, hi]

def emptyGrabEnv : GrabEnv := ⟨fun _ _ _ _ _ => ⟨[]⟩⟩

def staticEmptyState : ScreenState :=
  { using_screen := false
    screen_image := none
    crop_offset_x := 0
    crop_offset_y := 0
    raw_screen_width := 0
    raw_screen_height := 0
    screen_width := 0
    screen_height := 0
    monitor_number := none
    mon := none
    scales := defaultScales
    scaleX := 0
    scaleY := 0 }

/-- Witness for C9 at a concrete state and rect. -/
theorem static_none_returns_none_witness :
    get_screen_rect_pct emptyGrabEnv staticEmptyState ⟨0, 0, 1, 1⟩ =
      .ok none ∧
    get_screen_full emptyGrabEnv staticEmptyState = .ok none :=
  static_none_returns_none emptyGrabEnv staticEmptyState ⟨0, 0, 1, 1⟩
    rfl rfl

/-! ### C2: the crop computation, case by case -/

/-- The case description of the crop computation, stated with ordinary
field operations, `Int.floor` and floor integer division, following the
specified algorithm. -/
def cropSpecCases (rawW rawH : ℕ) : CropResult :=
  let target : ℚ := 16 / 9
  let current : ℚ := if rawH = 0 then target else (rawW : ℚ) / (rawH : ℚ)
  if |current - target| < 1 / 100 then
    ⟨(rawW : ℤ), (rawH : ℤ), 0, 0⟩
  else if target < current then
    ⟨⌊(rawH : ℚ) * target⌋, (rawH : ℤ),
      Int.fdiv ((rawW : ℤ) - ⌊(rawH : ℚ) * target⌋) 2, 0⟩
  else
    ⟨(rawW : ℤ), ⌊(rawW : ℚ) / target⌋, 0,
      Int.fdiv ((rawH : ℤ) - ⌊(rawW : ℚ) / target⌋) 2⟩

theorem targetAspect_eq : targetAspect = 16 / 9 := by
  rw [targetAspect, qdiv_eq]

theorem calc_crop_eq_cases (w h : ℕ) :
    calc_16_9_crop w h = cropSpecCases w h := by
  have hcur : (if 0 < h then qdiv (w : ℚ) (h : ℚ) else targetAspect) =
      (if h = 0 then (16 / 9 : ℚ) else (w : ℚ) / (h : ℚ)) := by
    rcases Nat.eq_zero_or_pos h with rfl | hp
    · rw [if_neg (lt_irrefl 0), if_pos rfl, targetAspect_eq]
    · rw [if_pos hp, if_neg (Nat.pos_iff_ne_zero.mp hp), qdiv_eq]
  simp only [calc_16_9_crop, cropSpecCases]
  rw [hcur]
  simp only [qsub_eq, pyAbs_eq_abs, targetAspect_eq, mkRat_one_hundredth,
    qmul_eq, qdiv_eq]
  rw [pyInt_eq_floor ((h : ℚ) * (16 / 9)) (by positivity),
    pyInt_eq_floor ((w : ℚ) / (16 / 9)) (by positivity)]

/-- C2: the 16:9 crop computation proceeds exactly by the specified
cases: aspect within 0.01 of 16/9 keeps the raw dimensions with zero
offsets; wider keeps the height, floors the width and centers
horizontally by integer division; taller keeps the width, floors the
height and centers vertically; a zero raw height takes the no-crop
branch. -/
theorem crop_proceeds_by_cases (w h : ℕ) :
    calc_16_9_crop w h = cropSpecCases w h :=
  calc_crop_eq_cases w h

/-! ### C3: monitor selection -/

/-- The loop predicate for a non-aggregate monitor
(`mon_num > 0`). -/
def nonAggPred (p : ℕ × MonitorInfo) : Bool := decide (0 < p.1)

/-- The loop predicate for a non-aggregate monitor whose `(left, top)`
matches the window rectangle's. -/
def monMatchPred (r : WinRect) (p : ℕ × MonitorInfo) : Bool :=
  decide (0 < p.1 ∧ p.2.left = r.left ∧ p.2.top = r.top)

theorem monitorLoop_none_eq (l : List (ℕ × MonitorInfo))
    (acc : Option (ℕ × MonitorInfo)) :
    monitorLoop none l acc = (l.find? nonAggPred).or acc := by
  induction l generalizing acc with
  | nil => rfl
  | cons p rest ih =>
    obtain ⟨i, m⟩ := p
    by_cases hi : 0 < i
    · simp only [monitorLoop, if_pos hi]
      rw [List.find?_cons_of_pos _ (by simp [nonAggPred, hi])]
      rfl
    · simp only [monitorLoop, if_neg hi]
      rw [ih, List.find?_cons_of_neg _ (by simp [nonAggPred, hi])]

theorem monitorLoop_some_eq (r : WinRect) (l : List (ℕ × MonitorInfo))
    (acc : Option (ℕ × MonitorInfo)) :
    monitorLoop (some r) l acc =
      (l.reverse.find? (monMatchPred r)).or acc := by
  induction l generalizing acc with
  | nil => rfl
  | cons p rest ih =>
    obtain ⟨i, m⟩ := p
    rw [List.reverse_cons, List.find?_append]
    by_cases hi : 0 < i
    · by_cases hm : m.left = r.left ∧ m.top = r.top
      · simp only [monitorLoop, if_pos hi, if_pos hm, ih]
        rw [show List.find? (monMatchPred r) [(i, m)] = some (i, m) from
          List.find?_cons_of_pos _ (by simp [monMatchPred, hi, hm.1, hm.2])]
        cases rest.reverse.find? (monMatchPred r) <;> rfl
      · simp only [monitorLoop, if_pos hi, if_neg hm, ih]
        rw [show List.find? (monMatchPred r) [(i, m)] = none from
          List.find?_cons_of_neg _ (by simp [monMatchPred, hi, hm])]
        cases rest.reverse.find? (monMatchPred r) <;> rfl
    · simp only [monitorLoop, if_neg hi, ih]
      rw [show List.find? (monMatchPred r) [(i, m)] = none from
        List.find?_cons_of_neg _ (by simp [monMatchPred, hi])]
      cases rest.reverse.find? (monMatchPred r) <;> rfl

/-- The monitor the constructor ends up with: the first non-aggregate
monitor when the window rect was not found, and the LAST matching
non-aggregate monitor (the last element of the enumeration whose
`(left, top)` matches) when it was found. -/
def selectedMonitorSpec (edRect : Option WinRect)
    (mons : List MonitorInfo) : Option (ℕ × MonitorInfo) :=
  match edRect with
  | none => mons.enum.find? nonAggPred
  | some r => mons.enum.reverse.find? (monMatchPred r)

/-- C3 (amended): when the window rectangle is found, the selected
monitor is the LAST non-aggregate monitor whose `(left, top)` equals the
rectangle's (the matching branch of the loop has no break, so a later
match overwrites an earlier one); when it is not found, the selected
monitor is the first non-aggregate monitor, and construction continues
rather than aborting. -/
theorem monitor_selection_uses_last_match (edRect : Option WinRect)
    (mons : List MonitorInfo) (cfg : Option ScaleTable) :
    (Screen.init edRect mons cfg).mon =
      (selectedMonitorSpec edRect mons).map Prod.snd ∧
    (Screen.init edRect mons cfg).monitor_number =
      (selectedMonitorSpec edRect mons).map Prod.fst := by
  have key : monitorLoop edRect mons.enum none =
      selectedMonitorSpec edRect mons := by
    cases edRect with
    | none =>
      rw [selectedMonitorSpec, monitorLoop_none_eq]
      cases mons.enum.find? nonAggPred <;> rfl
    | some r =>
      rw [selectedMonitorSpec, monitorLoop_some_eq]
      cases mons.enum.reverse.find? (monMatchPred r) <;> rfl
  constructor <;> simp only [Screen.init, key]

def monsTwinOrigin : List MonitorInfo :=
  [⟨0, 0, 5000, 2000⟩, ⟨0, 0, 1920, 1080⟩, ⟨0, 0, 2560, 1440⟩]

def twinRect : WinRect := ⟨0, 0, 1920, 1080⟩

/-- C3 counterexample: with the aggregate monitor at index 0 and two
non-aggregate monitors (indices 1 and 2) both at origin `(0, 0)` equal
to the window rectangle's, the constructor selects monitor 2 — the last
match — not the first matching monitor 1 the claim requires. -/
theorem monitor_selection_not_first_match :
    (Screen.init (some twinRect) monsTwinOrigin none).monitor_number =
      some 2 ∧
    ¬ (Screen.init (some twinRect) monsTwinOrigin none).monitor_number =
      some 1 := by
  decide

/-! ### C6: scale resolution -/

/-- C6: with the built-in default table in effect, a present key
resolves exactly to its table entry, and an absent key resolves to the
fallback `(width / 3440.0, height / 1440.0)`. -/
theorem scale_resolution (w h : ℤ) :
    (∀ p : ℚ × ℚ, defaultScales.lookup (scaleKey w h) = some p →
        resolve_scale defaultScales w h = p) ∧
    (defaultScales.lookup (scaleKey w h) = none →
        resolve_scale defaultScales w h =
          ((w : ℚ) / 3440, (h : ℚ) / 1440)) := by
  constructor
  · intro p hp
    rw [resolve_scale, hp]
  · intro hn
    rw [resolve_scale, hn, qdiv_eq, qdiv_eq]

/-- Witness for C6: key `"1920x1080"` is present and yields
`(0.75, 0.75)`; key `"7680x4320"` is absent and yields the fallback. -/
theorem scale_resolution_witness :
    resolve_scale defaultScales 1920 1080 = (mkRat 75 100, mkRat 75 100) ∧
    resolve_scale defaultScales 7680 4320 =
      ((7680 : ℚ) / 3440, (4320 : ℚ) / 1440) :=
  ⟨(scale_resolution 1920 1080).1 (mkRat 75 100, mkRat 75 100) (by decide),
   (scale_resolution 7680 4320).2 (by decide)⟩

/-! ### C10: window found but no monitor matches -/

def monsNoMatch : List MonitorInfo := [⟨0, 0, 3000, 2000⟩, ⟨10, 20, 1920, 1080⟩]

def strayRect : WinRect := ⟨500, 600, 2420, 1680⟩

/-- C10: when the window rectangle is found but no non-aggregate
monitor's `(left, top)` equals it, construction completes with `mon`
and `monitor_number` never assigned, raw dimensions still 0, the
zero-raw-height guard sending the crop computation through the no-crop
branch (so screen dimensions and crop offsets are all 0), and every
subsequent live capture call failing on the missing `mon` attribute. -/
theorem unmatched_window_state :
    (Screen.init (some strayRect) monsNoMatch none).monitor_number = none ∧
    (Screen.init (some strayRect) monsNoMatch none).mon = none ∧
    (Screen.init (some strayRect) monsNoMatch none).raw_screen_width = 0 ∧
    (Screen.init (some strayRect) monsNoMatch none).raw_screen_height = 0 ∧
    (Screen.init (some strayRect) monsNoMatch none).screen_width = 0 ∧
    (Screen.init (some strayRect) monsNoMatch none).screen_height = 0 ∧
    (Screen.init (some strayRect) monsNoMatch none).crop_offset_x = 0 ∧
    (Screen.init (some strayRect) monsNoMatch none).crop_offset_y = 0 ∧
    (∀ (env : GrabEnv) (xl yt xr yb : ℤ) (rgb : Bool),
      get_screen env (Screen.init (some strayRect) monsNoMatch none)
        xl yt xr yb rgb = .error .attributeError) ∧
    (∀ (env : GrabEnv) (rect : RectPct),
      get_screen_rect_pct env (Screen.init (some strayRect) monsNoMatch none)
        rect = .error .attributeError) := by
  have hm : (Screen.init (some strayRect) monsNoMatch none).mon = none := by
    decide
  have hn : (Screen.init (some strayRect) monsNoMatch none).monitor_number =
      none := by decide
  have hu : (Screen.init (some strayRect) monsNoMatch none).using_screen =
      true := by decide
  have hgs : ∀ (env : GrabEnv) (xl yt xr yb : ℤ) (rgb : Bool),
      get_screen env (Screen.init (some strayRect) monsNoMatch none)
        xl yt xr yb rgb = .error .attributeError := by
    intro env xl yt xr yb rgb
    rw [get_screen, hm, hn]
  refine ⟨hn, hm, by decide, by decide, by decide, by decide, by decide,
    by decide, hgs, ?_⟩
  intro env rect
  simp [get_screen_rect_pct, hu, hgs]

/-! ### C4: channel order of capture results -/

theorem pixSwapRB_invol (p : Pix) : pixSwapRB (pixSwapRB p) = p := by
  obtain ⟨a, b, c, d⟩ := p
  rfl

theorem cvtColorSwapRB_invol (img : Image) :
    cvtColorSwapRB (cvtColorSwapRB img) = img := by
  obtain ⟨rows⟩ := img
  simp [cvtColorSwapRB, List.map_map, Function.comp_def, pixSwapRB_invol]

/-- C4 (amended): with the grab service returning buffers in the native
BGRA order, `get_screen` with `rgb=True` returns the channel-swapped,
i.e. RGB-normalized, buffer of the requested rectangle; but
`get_screen_rect_pct` in live mode applies the channel swap a second
time, so it returns the buffer in the grab's native BGR(A) order — the
unswapped grab — not an RGB-normalized one. -/
theorem capture_channel_order (env : GrabEnv) (s : ScreenState)
    (m : MonitorInfo) (n : ℕ) (xl yt xr yb : ℤ) (rect : RectPct)
    (hm : s.mon = some m) (hn : s.monitor_number = some n) :
    get_screen env s xl yt xr yb true =
      .ok (cvtColorSwapRB (env.grab (m.top + s.crop_offset_y + yt)
        (m.left + s.crop_offset_x + xl) (xr - xl) (yb - yt) n)) ∧
    (s.using_screen = true →
      get_screen_rect_pct env s rect =
        .ok (some (env.grab
          (m.top + s.crop_offset_y + (screen_rect_to_abs s rect).t)
          (m.left + s.crop_offset_x + (screen_rect_to_abs s rect).l)
          ((screen_rect_to_abs s rect).r - (screen_rect_to_abs s rect).l)
          ((screen_rect_to_abs s rect).b - (screen_rect_to_abs s rect).t)
          n))) := by
  have hget : ∀ (a b c d : ℤ), get_screen env s a b c d true =
      .ok (cvtColorSwapRB (env.grab (m.top + s.crop_offset_y + b)
        (m.left + s.crop_offset_x + a) (c - a) (d - b) n)) := by
    intro a b c d
    simp [get_screen, hm, hn]
  refine ⟨hget xl yt xr yb, fun hu => ?_⟩
  simp [get_screen_rect_pct, hu, hget, cvtColorSwapRB_invol]

def bgraEnv : GrabEnv := ⟨fun _ _ _ _ _ => ⟨[[(10, 20, 30, 255)]]⟩⟩

def liveState : ScreenState :=
  { using_screen := true
    screen_image := none
    crop_offset_x := 40
    crop_offset_y := 5
    raw_screen_width := 2000
    raw_screen_height := 1090
    screen_width := 1920
    screen_height := 1080
    monitor_number := some 1
    mon := some ⟨0, 0, 2000, 1090⟩
    scales := defaultScales
    scaleX := 1
    scaleY := 1 }

/-- Witness for C4 (amended) at a concrete environment and live state:
the grab yields the BGRA pixel `(10, 20, 30, 255)`; `get_screen`
returns it swapped to `(30, 20, 10, 255)` (RGB order), while
`get_screen_rect_pct` returns it unswapped. -/
theorem capture_channel_order_witness :
    get_screen bgraEnv liveState 0 0 8 6 true =
      .ok ⟨[[(30, 20, 10, 255)]]⟩ ∧
    get_screen_rect_pct bgraEnv liveState ⟨0, 0, 1, 1⟩ =
      .ok (some ⟨[[(10, 20, 30, 255)]]⟩) := by
  have h := capture_channel_order bgraEnv liveState ⟨0, 0, 2000, 1090⟩ 1
    0 0 8 6 ⟨0, 0, 1, 1⟩ rfl rfl
  exact ⟨h.1.trans (by decide), (h.2 rfl).trans (by decide)⟩

/-- C4 counterexample: at a concrete grab environment returning the
BGRA pixel `(10, 20, 30, 255)`, the live-mode `get_screen_rect_pct`
returns that buffer unchanged, and the unchanged buffer differs from
its RGB-normalized (channel-swapped) version — so the claim that
`get_screen_rect_pct` returns an RGB-ordered buffer fails. -/
theorem rect_pct_not_rgb_normalized :
    get_screen_rect_pct bgraEnv liveState ⟨0, 0, 1, 1⟩ =
      .ok (some ⟨[[(10, 20, 30, 255)]]⟩) ∧
    (Except.ok (some (cvtColorSwapRB ⟨[[(10, 20, 30, 255)]]⟩)) :
        Except PyErr (Option Image)) ≠
      .ok (some ⟨[[(10, 20, 30, 255)]]⟩) := by
  decide

/-! ### C5: crop geometry invariants -/

/-- C5 counterexample: at raw dimensions 18 × 10 (both positive) the
crop computation takes the wider-than-16:9 branch and yields a 17 × 10
area, whose aspect ratio differs from 16/9 by 7/90 — far more than the
claimed 0.01 tolerance. -/
theorem crop_tolerance_fails_small :
    0 < 18 ∧ 0 < 10 ∧
    calc_16_9_crop 18 10 = ⟨17, 10, 0, 0⟩ ∧
    ¬ (|((calc_16_9_crop 18 10).screen_width : ℚ) /
        ((calc_16_9_crop 18 10).screen_height : ℚ) - 16 / 9| < 1 / 100) := by
  refine ⟨by norm_num, by norm_num, by decide, ?_⟩
  have h : calc_16_9_crop 18 10 = ⟨17, 10, 0, 0⟩ := by decide
  rw [h]
  push_cast
  rw [show ((17 : ℚ) / 10 - 16 / 9) = -(7 / 90) by norm_num, abs_neg,
    abs_of_nonneg (by norm_num)]
  norm_num

/-- C5 (amended): for positive raw dimensions the crop geometry always
satisfies `croppedWidth ≤ rawWidth`, `croppedHeight ≤ rawHeight` and
nonnegative offsets; the aspect-ratio tolerance
`|croppedWidth/croppedHeight − 16/9| < 0.01` additionally holds whenever
the cropped height is at least 178 pixels (it fails for tiny dimensions
such as 18 × 10). -/
theorem crop_invariants (w h : ℕ) (hw : 0 < w) (hh : 0 < h) :
    (calc_16_9_crop w h).screen_width ≤ (w : ℤ) ∧
    (calc_16_9_crop w h).screen_height ≤ (h : ℤ) ∧
    0 ≤ (calc_16_9_crop w h).crop_offset_x ∧
    0 ≤ (calc_16_9_crop w h).crop_offset_y ∧
    (178 ≤ (calc_16_9_crop w h).screen_height →
      |((calc_16_9_crop w h).screen_width : ℚ) /
        ((calc_16_9_crop w h).screen_height : ℚ) - 16 / 9| < 1 / 100) := by
  have hq : (0 : ℚ) < (h : ℚ) := by exact_mod_cast hh
  have c16 : (0 : ℚ) < 16 / 9 := by norm_num
  have hc : (if h = 0 then (16 / 9 : ℚ) else (w : ℚ) / (h : ℚ)) =
      (w : ℚ) / (h : ℚ) := if_neg (Nat.pos_iff_ne_zero.mp hh)
  rw [calc_crop_eq_cases]
  simp only [cropSpecCases]
  rw [hc]
  split_ifs with h1 h2 <;> dsimp only
  · refine ⟨le_refl _, le_refl _, le_refl _, le_refl _, fun _ => ?_⟩
    push_cast
    exact h1
  · -- wider than 16:9: keep height, floor the width
    have hlt : (h : ℚ) * (16 / 9) < (w : ℚ) := by
      have := (lt_div_iff hq).mp h2
      linarith
    have hfl : (⌊(h : ℚ) * (16 / 9)⌋ : ℚ) ≤ (h : ℚ) * (16 / 9) :=
      Int.floor_le _
    have hswZ : ⌊(h : ℚ) * (16 / 9)⌋ ≤ (w : ℤ) := by
      have hswlt : (⌊(h : ℚ) * (16 / 9)⌋ : ℚ) < (w : ℚ) :=
        lt_of_le_of_lt hfl hlt
      have : ⌊(h : ℚ) * (16 / 9)⌋ < (w : ℤ) := by exact_mod_cast hswlt
      exact this.le
    refine ⟨hswZ, le_refl _, Int.fdiv_nonneg (by omega) (by norm_num),
      le_refl _, fun h178 => ?_⟩
    have h178q : (178 : ℚ) ≤ (h : ℚ) := by exact_mod_cast h178
    have hB : (h : ℚ) * (16 / 9) - 1 < (⌊(h : ℚ) * (16 / 9)⌋ : ℚ) :=
      Int.sub_one_lt_floor _
    push_cast
    rw [abs_lt]
    constructor
    · have e1 : (16 / 9 - 1 / 100 : ℚ) * (h : ℚ) <
          (⌊(h : ℚ) * (16 / 9)⌋ : ℚ) := by nlinarith
      have := (lt_div_iff hq).mpr e1
      linarith
    · have e2 : (⌊(h : ℚ) * (16 / 9)⌋ : ℚ) / (h : ℚ) ≤ 16 / 9 :=
        (div_le_iff hq).mpr (by linarith)
      linarith
  · -- taller than 16:9: keep width, floor the height
    have ha : (w : ℚ) / (h : ℚ) ≤ 16 / 9 := not_lt.mp h2
    have habs : |(w : ℚ) / (h : ℚ) - 16 / 9| = 16 / 9 - (w : ℚ) / (h : ℚ) := by
      rw [abs_of_nonpos (by linarith)]
      ring
    have hta : (1 / 100 : ℚ) ≤ 16 / 9 - (w : ℚ) / (h : ℚ) :=
      habs ▸ not_lt.mp h1
    have hwlt : (w : ℚ) < (16 / 9) * (h : ℚ) := by
      have : (w : ℚ) / (h : ℚ) < 16 / 9 := by linarith
      exact (div_lt_iff hq).mp this
    have hA : (⌊(w : ℚ) / (16 / 9)⌋ : ℚ) ≤ (w : ℚ) / (16 / 9) :=
      Int.floor_le _
    have hshlt : (⌊(w : ℚ) / (16 / 9)⌋ : ℚ) < (h : ℚ) := by
      have hdiv : (w : ℚ) / (16 / 9) < (h : ℚ) :=
        (div_lt_iff c16).mpr (by linarith)
      linarith
    have hshZ : ⌊(w : ℚ) / (16 / 9)⌋ < (h : ℤ) := by exact_mod_cast hshlt
    refine ⟨le_refl _, hshZ.le, le_refl _,
      Int.fdiv_nonneg (by omega) (by norm_num), fun h178 => ?_⟩
    have hGq : (178 : ℚ) ≤ (⌊(w : ℚ) / (16 / 9)⌋ : ℚ) := by exact_mod_cast h178
    have hGpos : (0 : ℚ) < (⌊(w : ℚ) / (16 / 9)⌋ : ℚ) := by linarith
    have hB : (w : ℚ) / (16 / 9) - 1 < (⌊(w : ℚ) / (16 / 9)⌋ : ℚ) :=
      Int.sub_one_lt_floor _
    have k1 : (⌊(w : ℚ) / (16 / 9)⌋ : ℚ) * (16 / 9) ≤ (w : ℚ) :=
      (le_div_iff c16).mp hA
    have k2 : (w : ℚ) < ((⌊(w : ℚ) / (16 / 9)⌋ : ℚ) + 1) * (16 / 9) :=
      (div_lt_iff c16).mp (by linarith)
    push_cast
    rw [abs_lt]
    constructor
    · have e1 : 16 / 9 ≤ (w : ℚ) / (⌊(w : ℚ) / (16 / 9)⌋ : ℚ) :=
        (le_div_iff hGpos).mpr (by linarith)
      linarith
    · have e2 : (w : ℚ) / (⌊(w : ℚ) / (16 / 9)⌋ : ℚ) < 16 / 9 + 1 / 100 :=
        (div_lt_iff hGpos).mpr (by nlinarith)
      linarith

/-- Witness for C5 (amended) at raw dimensions 3840 × 1080 (wider than
16:9): cropped area 1920 × 1080 with horizontal offset 960, all
invariants including the aspect tolerance. -/
theorem crop_invariants_witness :
    (calc_16_9_crop 3840 1080).screen_width ≤ (3840 : ℤ) ∧
    (calc_16_9_crop 3840 1080).screen_height ≤ (1080 : ℤ) ∧
    0 ≤ (calc_16_9_crop 3840 1080).crop_offset_x ∧
    0 ≤ (calc_16_9_crop 3840 1080).crop_offset_y ∧
    |((calc_16_9_crop 3840 1080).screen_width : ℚ) /
      ((calc_16_9_crop 3840 1080).screen_height : ℚ) - 16 / 9| < 1 / 100 := by
  have h := crop_invariants 3840 1080 (by decide) (by decide)
  exact ⟨h.1, h.2.1, h.2.2.1, h.2.2.2.1, h.2.2.2.2 (by decide)⟩
